import Mathlib

/-!
Verification development for the xml2mql XML-to-Emdros-MQL importer
(src/xml2mql/xml2mql.py).  Python ints are embedded as Int; Python dicts
keyed by strings are embedded as insertion-ordered association lists with
overwrite-on-assignment semantics; Python exceptions are embedded as
Except String.  The source field names prefix/suffix of class Token appear
here as pre/suf.
-/

/-- An atomic token object (class Token, source lines 119-127). -/
structure Token where
  monad : Int
  pre : String
  surface : String
  suf : String
  wholesurface : String
  xmlindex : Int
  id_d : Int
deriving Repr, DecidableEq

/-- A structural (single-range) object (class SRObject, source lines 150-178).
Feature values are kept in rendered form, as they appear in dumpMQL. -/
structure SRObject where
  objectTypeName : String
  fm : Int
  lm : Int
  stringFeatures : List (String × String)
  nonStringFeatures : List (String × String)
  id_d : Int
deriving Repr, DecidableEq

/-- A type-catalogue entry (class ObjectTypeDescription, source lines 43-56). -/
structure ObjectTypeDescription where
  objectTypeName : String
  objectRangeType : String
  features : List (String × String)
deriving Repr, DecidableEq

/-- One handled-element entry of the declarative JSON script:
script["handled_elements"][tag].  The `none` cases of the Option fields
are the .get defaults used by the source.  Each attribute maps the XML
attribute name to that attribute's JSON object — itself a string mapping,
normally carrying the keys "featureName" and "featureType" (see the JSON
generator, source lines 341-365); an absent "attributes" key is modelled
as the empty list, which the source treats identically (the loop body
never runs either way). -/
structure HandledSpec where
  objectTypeName : String
  tokenObjectTypeName : Option String
  minimumMonadLength : Int
  objectRangeType : Option String
  attributes : List (String × List (String × String))
deriving Repr, DecidableEq

/-- The declarative JSON script consumed by MQLGeneratorHandler.
global_parameters_keys is the key list of the global_parameters JSON
object; the JSON generator (source lines 320-330) emits exactly
[docIndexFeatureName, docIndexIncrementBeforeObjectType,
tokenObjectTypeNameList].  makeSchema (source line 486) iterates this
key list. -/
structure Script where
  docIndexFeatureName : String
  docIndexIncrementBeforeObjectType : List (String × Int)
  tokenObjectTypeNameList : List String
  global_parameters_keys : List String
  handled_elements : List (String × HandledSpec)
  ignored_elements : List String
  nixed_elements : List String
deriving Repr

/-- The mutable state of MQLGeneratorHandler (source lines 446-467 plus the
BaseHandler stacks, source lines 192-196).  Stack tops are at the head for
elemstack and nixing_stack; charstack and the per-type object lists keep
document order (Python list.append adds at the end, list.pop removes the
last element). -/
structure MQLState where
  elemstack : List String
  charstack : List String
  nixing_stack : List String
  curdocindex : Int
  curmonad : Int
  curid_d : Int
  objstacks : List (String × List SRObject)
  objects : List (String × List SRObject)
  tokens : List (String × List Token)
deriving Repr

/-- Python dict assignment d[k] = v: overwrite in place, else append. -/
def setAssoc {α : Type} : List (String × α) → String → α → List (String × α)
  | [], k, v => [(k, v)]
  | (k2, v2) :: rest, k, v =>
    if k2 = k then (k, v) :: rest else (k2, v2) :: setAssoc rest k v

/-- Python d.setdefault(k, []).append(v). -/
def appendAtKey {α : Type} (m : List (String × List α)) (k : String) (v : α) :
    List (String × List α) :=
  setAssoc m k (((m.lookup k).getD []) ++ [v])

/-- Python d[k].append(v): KeyError (none) when the key is absent. -/
def appendAtExistingKey {α : Type} :
    List (String × List α) → String → α → Option (List (String × List α))
  | [], _, _ => none
  | (k2, l) :: rest, k, v =>
    if k2 = k then some ((k2, l ++ [v]) :: rest)
    else (appendAtExistingKey rest k v).map (fun r => (k2, l) :: r)

/-- Modelled from the spec: the external Tokenizer collaborator
(latin_tokenizer.tokenize_string, imported at source line 20 but not under
src/).  Spec section 2 treats it as an interface-only collaborator mapping
text to ordered (prefix, surface, suffix) triples, and section 8 uses "a
trivial tokenizer splitting on whitespace" in its scenarios; it is modelled
as that whitespace splitter, with empty prefix and suffix. -/
def splitWordsAux : List Char → List Char → List (List Char)
  | [], acc => if acc = [] then [] else [acc.reverse]
  | c :: cs, acc =>
    if c.isWhitespace then
      if acc = [] then splitWordsAux cs []
      else acc.reverse :: splitWordsAux cs []
    else splitWordsAux cs (c :: acc)

/-- Modelled from the spec: see splitWordsAux above; the maximal
whitespace-free runs of the text, each as a bare surface. -/
def tokenize_string (s : String) : List (String × String × String) :=
  (splitWordsAux s.data []).map (fun w => ("", String.mk w, ""))

/-- The special_dict substitution (source lines 82-96): one byte of the
UTF-8 encoded string mapped to its backslash escape, applied by
special_re.sub to the bytes newline, tab, double quote, backslash. -/
def special_sub (b : Nat) : List Nat :=
  if b = 10 then [92, 110]
  else if b = 9 then [92, 116]
  else if b = 34 then [92, 34]
  else if b = 92 then [92, 92]
  else [b]

/-- One lowercase hexadecimal digit of b"%02x" (source line 101). -/
def hexDigitChar (n : Nat) : Nat := if n < 10 then 48 + n else 87 + n

/-- The upper_bit_re substitution (source lines 91-101): a byte with the
high bit set becomes a four-byte hexadecimal escape. -/
def upper_bit_sub (b : Nat) : List Nat :=
  if 128 ≤ b then [92, 120, hexDigitChar (b / 16), hexDigitChar (b % 16)]
  else [b]

/-- Byte-wise regex substitution: each byte replaced by its image. -/
def concatMapB (f : Nat → List Nat) : List Nat → List Nat
  | [] => []
  | b :: bs => f b ++ concatMapB f bs

/-- The byte-level core of mangleMQLString (source lines 103-106): the
special_re substitution followed by the upper_bit_re substitution on the
UTF-8 bytes. -/
def mangleBytes (bs : List Nat) : List Nat :=
  concatMapB upper_bit_sub (concatMapB special_sub bs)

/-- UTF-8 encoding of one code point (Python str.encode, written out). -/
def utf8EncodeCp (n : Nat) : List Nat :=
  if n < 128 then [n]
  else if n < 2048 then [192 + n / 64, 128 + n % 64]
  else if n < 65536 then [224 + n / 4096, 128 + (n / 64) % 64, 128 + n % 64]
  else [240 + n / 262144, 128 + (n / 4096) % 64, 128 + (n / 64) % 64,
        128 + n % 64]

/-- UTF-8 bytes of a string (Python ustr.encode("utf-8"), source line 104). -/
def utf8Bytes (s : String) : List Nat :=
  (s.data.map (fun c => utf8EncodeCp c.toNat)).flatten

/-- mangleMQLString (source lines 103-106), as a byte list. -/
def mangleMQLString (ustr : String) : List Nat :=
  mangleBytes (utf8Bytes ustr)

/-- The mangled bytes read back as characters, for embedding a mangled
value inside an output line. -/
def mangleRender (s : String) : String :=
  String.mk ((mangleMQLString s).map (fun b => Char.ofNat b))

/-- Modelled from the spec: the inverse unescape rule of spec sections 6
and 8 ("the rendered escaped form, when reversed by the inverse unescape
rule, reproduces the original bytes"); no decoder exists in src/.  A
backslash followed by n, t, a quote or a backslash denotes the escaped
byte; a backslash followed by x and two lowercase hex digits denotes that
byte; every other byte denotes itself. -/
def hexVal (c : Nat) : Nat := if c ≤ 57 then c - 48 else c - 87

/-- Modelled from the spec: see hexVal.  The inverse unescape rule. -/
def unescapeBytes : List Nat → List Nat
  | [] => []
  | b :: rest =>
    if b = 92 then
      match rest with
      | [] => [b]
      | c :: rest2 =>
        if c = 110 then 10 :: unescapeBytes rest2
        else if c = 116 then 9 :: unescapeBytes rest2
        else if c = 34 then 34 :: unescapeBytes rest2
        else if c = 92 then 92 :: unescapeBytes rest2
        else if c = 120 then
          match rest2 with
          | h1 :: h2 :: rest3 => (16 * hexVal h1 + hexVal h2) :: unescapeBytes rest3
          | _ => b :: c :: rest2
        else b :: c :: unescapeBytes rest2
    else b :: unescapeBytes rest

/-- List-of-characters prefix test (head segment). -/
def isHeadSeg : List Char → List Char → Bool
  | [], _ => true
  | _ :: _, [] => false
  | p :: ps, s :: ss => p == s && isHeadSeg ps ss

/-- s starts with p. -/
def strStartsWith (s p : String) : Bool := isHeadSeg p.data s.data

/-- Whether a sequence of written output lines contains the object
identifier clause. -/
def hasIdClause (lines : List String) : Bool :=
  lines.any (fun s => strStartsWith s "WITH ID_D=")

/-- Token.dumpMQL (source lines 129-147), as the list of strings written
to the output file, in order. -/
def Token.dumpMQL (t : Token) : List String :=
  let surface_lowcase := t.surface.toLower
  ["CREATE OBJECT FROM MONADS=\x7b" ++ toString t.monad ++ "\x7d\n"]
  ++ (if t.id_d ≠ 0 then ["WITH ID_D=" ++ toString t.id_d ++ "\n"] else [])
  ++ ["["]
  ++ ([("prefix", t.pre), ("surface", t.surface), ("suffix", t.suf),
       ("surface_lowcase", surface_lowcase)].map
        (fun fv => fv.1 ++ ":\"" ++ mangleRender fv.2 ++ "\";\n"))
  ++ ["xmlindex:=" ++ toString t.xmlindex ++ ";\n"]
  ++ ["]\n"]

/-- SRObject.dumpMQL (source lines 181-190), as the list of strings
written to the output file, in order. -/
def SRObject.dumpMQL (o : SRObject) : List String :=
  ["CREATE OBJECT FROM MONADS=\x7b" ++ toString o.fm ++ "-" ++ toString o.lm ++ "\x7d"]
  ++ (if o.id_d ≠ 0 then ["WITH ID_D=" ++ toString o.id_d] else [])
  ++ ["["]
  ++ (o.nonStringFeatures.map (fun kv => "  " ++ kv.1 ++ ":=" ++ kv.2 ++ ";\n"))
  ++ (o.stringFeatures.map (fun kv => "  " ++ kv.1 ++ ":=\"" ++ mangleRender kv.2 ++ "\";\n"))
  ++ ["]\n"]

/-- SRObject.setLastMonad (source lines 171-175): a span may never end
before it begins. -/
def setLastMonad (o : SRObject) (ending_monad : Int) : SRObject :=
  if ending_monad < o.fm then { o with lm := o.fm } else { o with lm := ending_monad }

/-- SRObject.getMonadLength (source lines 177-178). -/
def getMonadLength (o : SRObject) : Int := o.lm - o.fm + 1

/-- One unrolling step per unit of fuel of the while loop of
handleElementEnd (source lines 608-610): while the span is shorter than
the minimum, set the last monad to the current monad and advance the
monad counter. -/
def padLoopAux : Nat → Int → SRObject → Int → SRObject × Int
  | 0, _, o, cm => (o, cm)
  | fuel + 1, minLen, o, cm =>
    if getMonadLength o < minLen then
      padLoopAux fuel minLen (setLastMonad o cm) (cm + 1)
    else (o, cm)

/-- Fuel sufficient for the padding loop (proved sufficient below:
padLoopAux_guard_false shows the loop condition is false at the result,
so the fueled loop computes exactly what the source while loop does). -/
def padFuel (minLen fm cm : Int) : Nat := (minLen + fm - cm).toNat + 1

/-- The whole padding while loop of handleElementEnd (source lines
608-610). -/
def padObject (minLen : Int) (o : SRObject) (cm : Int) : SRObject × Int :=
  padLoopAux (padFuel minLen o.fm cm) minLen o cm

/-- featureTypeIsSTRING (source lines 572-576): "string" occurs in the
lower-cased feature type. -/
def subContains : List Char → List Char → Bool
  | [], needle => isHeadSeg needle []
  | c :: t, needle => isHeadSeg needle (c :: t) || subContains t needle

/-- featureTypeIsSTRING (source lines 572-576). -/
def featureTypeIsSTRING (featureType : String) : Bool :=
  subContains featureType.toLower.data "string".data

/-- MQLGeneratorHandler.createToken (source lines 536-546).  Note the
source computes min(1, configured increment), not max.  Appending to
self.tokens raises KeyError when the token type is not a key (the keys
are set up from tokenObjectTypeNameList, source lines 470-471). -/
def mintedToken (sc : Script) (tokenObjectTypeName p s x : String)
    (st : MQLState) : Token :=
  { monad := st.curmonad, pre := p, surface := s, suf := x,
    wholesurface := p ++ s ++ x,
    xmlindex := st.curdocindex +
      min 1 ((sc.docIndexIncrementBeforeObjectType.lookup tokenObjectTypeName).getD 1),
    id_d := st.curid_d }

/-- MQLGeneratorHandler.createToken, continued: see mintedToken above. -/
def createToken (sc : Script) (tokenObjectTypeName p s x : String)
    (st : MQLState) : Except String MQLState :=
  let docindex_increment : Int :=
    min 1 ((sc.docIndexIncrementBeforeObjectType.lookup tokenObjectTypeName).getD 1)
  let d := st.curdocindex + docindex_increment
  let t : Token := mintedToken sc tokenObjectTypeName p s x st
  match appendAtExistingKey st.tokens tokenObjectTypeName t with
  | none => Except.error ("KeyError: " ++ tokenObjectTypeName)
  | some tokens2 =>
    Except.ok { st with
      curdocindex := d + 1,
      curmonad := st.curmonad + 1,
      curid_d := st.curid_d + 1,
      tokens := tokens2 }

/-- MQLGeneratorHandler.createObject (source lines 548-555): the object is
created at the current monad, records the current document index as a
non-string feature, the document index advances by one, and the object is
pushed onto its type's open-object stack.  The object is returned so the
caller can keep assigning features; the push is reflected by the caller
replacing the stack top (the source mutates the pushed object in place). -/
def createObject (sc : Script) (objectTypeName : String) (st : MQLState) :
    SRObject × MQLState :=
  let obj : SRObject :=
    { objectTypeName := objectTypeName, fm := st.curmonad, lm := st.curmonad,
      stringFeatures := [],
      nonStringFeatures := [(sc.docIndexFeatureName, toString st.curdocindex)],
      id_d := 0 }
  (obj, { st with
      curdocindex := st.curdocindex + 1,
      objstacks := appendAtKey st.objstacks objectTypeName obj })

/-- SRObject.setStringFeature (source lines 162-163). -/
def SRObject.setStringFeature (o : SRObject) (name value : String) : SRObject :=
  { o with stringFeatures := setAssoc o.stringFeatures name value }

/-- SRObject.setNonStringFeature (source lines 165-166); the value is kept
in the rendered form dumpMQL would print. -/
def SRObject.setNonStringFeature (o : SRObject) (name value : String) : SRObject :=
  { o with nonStringFeatures := setAssoc o.nonStringFeatures name value }

/-- MQLGeneratorHandler.handleElementStart (source lines 578-597): create
the object, then assign string or non-string features from the declared
attributes present on the start tag.  The feature name is read by direct
indexing ["featureName"] (source line 590, a KeyError when absent) and
the feature type through getFeatureType's .get("featureType", "STRING")
(source lines 567-570).  The source mutates the object it already pushed;
here the finished object replaces the freshly pushed stack top, which is
observationally the same. -/
def handleElementStart (sc : Script) (tag : String)
    (attributes : List (String × String)) (st : MQLState) :
    Except String MQLState :=
  match sc.handled_elements.lookup tag with
  | none => Except.ok st
  | some h => do
    let pr := createObject sc h.objectTypeName st
    let obj ← h.attributes.foldlM
      (fun (o : SRObject) (kv : String × List (String × String)) =>
        match attributes.lookup kv.1 with
        | none => Except.ok o
        | some value =>
          match (kv.2).lookup "featureName" with
          | none => Except.error "KeyError: featureName"
          | some featureName =>
            let featureType := ((kv.2).lookup "featureType").getD "STRING"
            Except.ok (if featureTypeIsSTRING featureType then
                o.setStringFeature featureName value
              else o.setNonStringFeature featureName value)) pr.1
    let stack := ((pr.2.objstacks.lookup h.objectTypeName).getD [])
    Except.ok { pr.2 with
      objstacks := setAssoc pr.2.objstacks h.objectTypeName (stack.dropLast ++ [obj]) }

/-- MQLGeneratorHandler.handleChars (source lines 518-534): only a
terminal flush of text for a handled element with a token type is
tokenized; every other flush is dropped. -/
def handleChars (sc : Script) (chars_before tag : String) (bIsEndTag : Bool)
    (st : MQLState) : Except String MQLState :=
  let bDoIt :=
    if ¬ bIsEndTag then false
    else match sc.handled_elements.lookup tag with
      | none => false
      | some h => h.tokenObjectTypeName.isSome
  if bDoIt then
    match sc.handled_elements.lookup tag with
    | some h =>
      match h.tokenObjectTypeName with
      | some tokenObjectTypeName =>
        (tokenize_string chars_before).foldlM
          (fun st2 (tr : String × String × String) =>
            createToken sc tokenObjectTypeName tr.1 tr.2.1 tr.2.2 st2) st
      | none => Except.ok st
    | none => Except.ok st
  else Except.ok st

/-- MQLGeneratorHandler.endObject (source lines 557-565): pop the type's
open-object stack (a fatal error when there is nothing to pop), and set
the popped object's last monad to the current monad minus one.  The
source appends the popped object to the finished collection here and then
keeps mutating it during padding; the caller below appends it after
padding, which is observationally the same. -/
def endObject (objectTypeName : String) (st : MQLState) :
    Except String (SRObject × MQLState) :=
  match st.objstacks.lookup objectTypeName with
  | none => Except.error ("KeyError: " ++ objectTypeName)
  | some stack =>
    match stack.getLast? with
    | none => Except.error "IndexError: pop from empty list"
    | some obj =>
      Except.ok (setLastMonad obj (st.curmonad - 1),
        { st with objstacks := setAssoc st.objstacks objectTypeName stack.dropLast })

/-- MQLGeneratorHandler.handleElementEnd (source lines 599-612): close the
object and pad its span up to the configured minimum monad length,
advancing the global monad counter for each phantom monad. -/
def handleElementEnd (sc : Script) (tag : String) (st : MQLState) :
    Except String MQLState :=
  match sc.handled_elements.lookup tag with
  | none => Except.ok st
  | some h => do
    let pr ← endObject h.objectTypeName st
    let padded := padObject h.minimumMonadLength pr.1 pr.2.curmonad
    Except.ok { pr.2 with
      curmonad := padded.2,
      objects := appendAtKey pr.2.objects h.objectTypeName padded.1 }

/-- BaseHandler.startElement (source lines 220-244) with the
MQLGeneratorHandler hooks: push the tag, flush buffered text
(non-terminal), then classify: nixed tags push the suppression stack, an
active suppression swallows everything, handled tags open an object,
ignored tags are no-ops, and an unknown tag is a fatal error
(MQLGeneratorHandler.handleUnknownElementStart returns False). -/
def startElement (sc : Script) (tag : String)
    (attributes : List (String × String)) (st : MQLState) :
    Except String MQLState := do
  let st := { st with elemstack := tag :: st.elemstack }
  let chars := String.join st.charstack
  let st := { st with charstack := [] }
  let st ← handleChars sc chars tag false st
  if sc.nixed_elements.contains tag then
    Except.ok { st with nixing_stack := tag :: st.nixing_stack }
  else if st.nixing_stack ≠ [] then
    Except.ok st
  else if (sc.handled_elements.lookup tag).isSome then
    handleElementStart sc tag attributes st
  else if sc.ignored_elements.contains tag then
    Except.ok st
  else
    Except.error ("Error: Unknown start-tag " ++ tag)

/-- BaseHandler.endElement (source lines 260-284) with the
MQLGeneratorHandler hooks: flush buffered text (terminal) BEFORE the
suppression check, then un-suppress or classify, and finally pop the
element stack (IndexError when it is empty). -/
def endElement (sc : Script) (tag : String) (st : MQLState) :
    Except String MQLState := do
  let chars := String.join st.charstack
  let st := { st with charstack := [] }
  let st ← handleChars sc chars tag true st
  let st ←
    match st.nixing_stack with
    | top :: rest =>
      if top = tag then Except.ok { st with nixing_stack := rest }
      else Except.ok st
    | [] =>
      if (sc.handled_elements.lookup tag).isSome then handleElementEnd sc tag st
      else if sc.ignored_elements.contains tag then Except.ok st
      else Except.error ("Error: Unknown end-tag " ++ tag)
  match st.elemstack with
  | [] => Except.error "IndexError: pop from empty list"
  | _ :: rest => Except.ok { st with elemstack := rest }

/-- BaseHandler.endDocument (source lines 217-218): a no-op. -/
def endDocument (st : MQLState) : Except String MQLState := Except.ok st

/-- A SAX structural event fed to the handler. -/
inductive SAXEvent where
  | start (tag : String) (attributes : List (String × String))
  | endTag (tag : String)
  | chars (data : String)

/-- Dispatch of one SAX event (BaseHandler.characters, source lines
208-209, appends to the text buffer). -/
def processEvent (sc : Script) (st : MQLState) : SAXEvent → Except String MQLState
  | SAXEvent.start tag attributes => startElement sc tag attributes st
  | SAXEvent.endTag tag => endElement sc tag st
  | SAXEvent.chars data => Except.ok { st with charstack := st.charstack ++ [data] }

/-- A whole run of the handler over an event sequence. -/
def processEvents (sc : Script) (evs : List SAXEvent) (st : MQLState) :
    Except String MQLState :=
  evs.foldlM (processEvent sc) st

/-- MQLGeneratorHandler.__init__ (source lines 446-467): first_monad and
first_id_d are accepted as initial counter state, while curdocindex is
set to 1 unconditionally (source line 457); the per-token-type collections
are seeded from tokenObjectTypeNameList (source lines 470-471). -/
def initMQLState (sc : Script) (first_monad first_id_d : Int) : MQLState :=
  { elemstack := [], charstack := [], nixing_stack := [],
    curdocindex := 1,
    curmonad := first_monad,
    curid_d := first_id_d,
    objstacks := [], objects := [],
    tokens := sc.tokenObjectTypeNameList.map (fun n => (n, [])) }

/-- ObjectTypeDescription.__init__ (source lines 44-51). -/
def mkObjectTypeDescription (objectTypeName objectRangeType : String) :
    ObjectTypeDescription :=
  { objectTypeName := objectTypeName,
    objectRangeType :=
      if objectRangeType ≠ "" then objectRangeType else "WITH SINGLE RANGE OBJECTS",
    features := [] }

/-- ObjectTypeDescription.addFeature (source lines 53-56). -/
def addFeature (d : ObjectTypeDescription) (featureName featureType : String) :
    ObjectTypeDescription :=
  { d with features := setAssoc d.features featureName featureType }

/-- One attribute of makeSchema's element loop (source lines 506-511).
In Python, featureName and featureType are function-scoped locals: the
token-feature loop (source lines 489-493) leaves them bound to its last
pair, so lines 507-508 use the PREVIOUS pair as lookup keys into the
attribute's JSON object, each defaulting to "".  For a normal attribute
object (keys "featureName"/"featureType") both lookups miss, both locals
become "", the `if featureName and featureType` guard fails, and the
attribute's declared feature is silently dropped.  An UnboundLocalError
is raised only when the locals were never bound, i.e. when
global_parameters has no keys at all. -/
def makeSchemaAttrStep (d : ObjectTypeDescription)
    (leaked : Option (String × String)) (attrObj : List (String × String)) :
    Except String (ObjectTypeDescription × Option (String × String)) :=
  match leaked with
  | none =>
    Except.error "UnboundLocalError: local variable referenced before assignment"
  | some fnft =>
    let featureName := (attrObj.lookup fnft.1).getD ""
    let featureType := (attrObj.lookup fnft.2).getD ""
    if featureName ≠ "" ∧ featureType ≠ "" then
      Except.ok (addFeature d featureName featureType, some (featureName, featureType))
    else
      Except.ok (d, some (featureName, featureType))

/-- The handled-element loop of makeSchema (source lines 500-516),
threading the leaked featureName/featureType pair through the attribute
steps of successive attributes and elements. -/
def makeSchemaElements (docIndexFeatureName : String) :
    List (String × HandledSpec) → Option (String × String) →
    List (String × ObjectTypeDescription) →
    Except String (List (String × ObjectTypeDescription))
  | [], _, schema => Except.ok schema
  | eh :: rest, leaked, schema => do
    let d := mkObjectTypeDescription eh.2.objectTypeName
      ((eh.2.objectRangeType).getD "WITH SINGLE RANGE OBJECTS")
    let pr ← eh.2.attributes.foldlM
      (fun (acc : ObjectTypeDescription × Option (String × String))
          (kv : String × List (String × String)) =>
        makeSchemaAttrStep acc.1 acc.2 kv.2) (d, leaked)
    let d2 := addFeature pr.1 docIndexFeatureName "INTEGER"
    makeSchemaElements docIndexFeatureName rest pr.2
      (setAssoc schema eh.2.objectTypeName d2)

/-- MQLGeneratorHandler.makeSchema (source lines 485-516).  Source line
486 iterates the KEYS of the global_parameters mapping (not the
tokenObjectTypeNameList), so the token-type entries are named after those
keys.  Whenever at least one key exists, the token-feature loop (source
lines 489-493) leaves the Python function-locals featureName/featureType
bound to its last pair ("surface_lowcase", "STRING WITH INDEX"), which the
element loop then reads at source lines 507-508; see makeSchemaAttrStep. -/
def makeSchema (sc : Script) :
    Except String (List (String × ObjectTypeDescription)) :=
  let schema0 := sc.global_parameters_keys.foldl
    (fun schema tokenObjectTypeName =>
      let d := mkObjectTypeDescription tokenObjectTypeName "WITH SINGLE MONAD OBJECTS"
      let d := addFeature d "pre" "STRING FROM SET"
      let d := addFeature d "surface" "STRING WITH INDEX"
      let d := addFeature d "post" "STRING FROM SET"
      let d := addFeature d "surface_lowcase" "STRING WITH INDEX"
      let d := addFeature d sc.docIndexFeatureName "INTEGER"
      setAssoc schema tokenObjectTypeName d) []
  let leaked : Option (String × String) :=
    if sc.global_parameters_keys = [] then none
    else some ("surface_lowcase", "STRING WITH INDEX")
  makeSchemaElements sc.docIndexFeatureName sc.handled_elements leaked schema0

/-- The key list of the global_parameters object emitted by the JSON
generator (source lines 320-330). -/
def stdGlobalParametersKeys : List String :=
  ["docIndexFeatureName", "docIndexIncrementBeforeObjectType",
   "tokenObjectTypeNameList"]

/-- The script of the nixing scenario: "p" handled with token type "word",
"note" nixed. -/
def scenarioScript : Script :=
  { docIndexFeatureName := "xmlindex",
    docIndexIncrementBeforeObjectType := [("word", 1)],
    tokenObjectTypeNameList := ["word"],
    global_parameters_keys := stdGlobalParametersKeys,
    handled_elements :=
      [("p", { objectTypeName := "p", tokenObjectTypeName := some "word",
               minimumMonadLength := 1, objectRangeType := none,
               attributes := [] })],
    ignored_elements := [],
    nixed_elements := ["note"] }

/-- The event stream of the input <p>A<note>B<p>C</p></note>D</p>. -/
def nixScenarioEvents : List SAXEvent :=
  [SAXEvent.start "p" [], SAXEvent.chars "A",
   SAXEvent.start "note" [], SAXEvent.chars "B",
   SAXEvent.start "p" [], SAXEvent.chars "C", SAXEvent.endTag "p",
   SAXEvent.endTag "note", SAXEvent.chars "D",
   SAXEvent.endTag "p"]

/-- The surfaces of the tokens minted for a token type, in mint order. -/
def tokenSurfaces (st : MQLState) (tokenObjectTypeName : String) : List String :=
  ((st.tokens.lookup tokenObjectTypeName).getD []).map Token.surface

/-- The (monad, surface) pairs of the tokens minted for a token type. -/
def tokenMonadSurfaces (st : MQLState) (tokenObjectTypeName : String) :
    List (Int × String) :=
  ((st.tokens.lookup tokenObjectTypeName).getD []).map
    (fun t => (t.monad, t.surface))

/-- The (first monad, last monad) spans of the finished objects of a type. -/
def objectSpans (st : MQLState) (objectTypeName : String) : List (Int × Int) :=
  ((st.objects.lookup objectTypeName).getD []).map (fun o => (o.fm, o.lm))

/-- The script of the milestone scenario: "milestone" handled, no token
association, minimum monad length 3. -/
def milestoneScript : Script :=
  { docIndexFeatureName := "xmlindex",
    docIndexIncrementBeforeObjectType := [("word", 1)],
    tokenObjectTypeNameList := ["word"],
    global_parameters_keys := stdGlobalParametersKeys,
    handled_elements :=
      [("milestone", { objectTypeName := "milestone",
                       tokenObjectTypeName := none,
                       minimumMonadLength := 3, objectRangeType := none,
                       attributes := [] })],
    ignored_elements := [],
    nixed_elements := [] }

/-- The event stream of the input <milestone/>. -/
def milestoneEvents : List SAXEvent :=
  [SAXEvent.start "milestone" [], SAXEvent.endTag "milestone"]

/-- A script whose configured document-index pre-increment for "word" is
5 (a larger skip, which the spec says is honored). -/
def skipFiveScript : Script :=
  { scenarioScript with docIndexIncrementBeforeObjectType := [("word", 5)] }

/-- A script whose configured document-index pre-increment for "word" is
-3 (non-positive; the spec says the counter always advances by at least 1). -/
def skipNegThreeScript : Script :=
  { scenarioScript with docIndexIncrementBeforeObjectType := [("word", -3)] }

/-- A script whose configured document-index pre-increment for "word" is
-2, used to exhibit a decreasing document-index counter. -/
def skipNegTwoScript : Script :=
  { scenarioScript with docIndexIncrementBeforeObjectType := [("word", -2)] }

/-- A script for the schema claim: token-type list ["word"], one handled
element "chapter" without attributes. -/
def schemaScript : Script :=
  { docIndexFeatureName := "xmlindex",
    docIndexIncrementBeforeObjectType := [("word", 1)],
    tokenObjectTypeNameList := ["word"],
    global_parameters_keys := stdGlobalParametersKeys,
    handled_elements :=
      [("chapter", { objectTypeName := "chapter", tokenObjectTypeName := none,
                     minimumMonadLength := 1, objectRangeType := none,
                     attributes := [] })],
    ignored_elements := [],
    nixed_elements := [] }

/-- schemaScript with a declared attribute on the handled element: XML
attribute "n" mapped to feature name "n" of type STRING. -/
def schemaScriptWithAttribute : Script :=
  { schemaScript with
    handled_elements :=
      [("chapter", { objectTypeName := "chapter", tokenObjectTypeName := none,
                     minimumMonadLength := 1, objectRangeType := none,
                     attributes :=
                       [("n", [("featureName", "n"),
                               ("featureType", "STRING")])] })] }

/-- schemaScriptWithAttribute with an empty global_parameters object: the
only configuration under which makeSchema's attribute loop finds its
featureName/featureType locals unbound. -/
def emptyParamsAttrScript : Script :=
  { schemaScriptWithAttribute with global_parameters_keys := [] }

/-- The event stream of document 1, <p>A B</p>, of the two-document
composition scenario. -/
def docOneEvents : List SAXEvent :=
  [SAXEvent.start "p" [], SAXEvent.chars "A B", SAXEvent.endTag "p"]

/-- The event stream of document 2, <p>C</p>, of the two-document
composition scenario. -/
def docTwoEvents : List SAXEvent :=
  [SAXEvent.start "p" [], SAXEvent.chars "C", SAXEvent.endTag "p"]

/-- The event stream of an unbalanced input: a second <p> is opened and
never closed. -/
def unbalancedEvents : List SAXEvent :=
  [SAXEvent.start "p" [], SAXEvent.chars "hi", SAXEvent.endTag "p",
   SAXEvent.start "p" []]

/-- The event stream of <p>A B C</p>, minting three tokens. -/
def threeTokenEvents : List SAXEvent :=
  [SAXEvent.start "p" [], SAXEvent.chars "A B C", SAXEvent.endTag "p"]

/-- A concrete open object used to instantiate the padding theorem. -/
def padWitnessObject : SRObject :=
  { objectTypeName := "milestone", fm := 1, lm := 1,
    stringFeatures := [], nonStringFeatures := [], id_d := 0 }

theorem data_append2 (a b : String) : (a ++ b).data = a.data ++ b.data := by
  cases a
  cases b
  rfl

theorem isHeadSeg_append_self (l r : List Char) : isHeadSeg l (l ++ r) = true := by
  induction l with
  | nil => rfl
  | cons c cs ih => simp [isHeadSeg, ih]

theorem setLastMonad_fm (o : SRObject) (e : Int) : (setLastMonad o e).fm = o.fm := by
  unfold setLastMonad
  split <;> rfl

theorem setLastMonad_fm_le_lm (o : SRObject) (e : Int) :
    o.fm ≤ (setLastMonad o e).lm := by
  unfold setLastMonad
  split
  · simp
  · simp
    omega

theorem concatMapB_append (f : Nat → List Nat) (l1 l2 : List Nat) :
    concatMapB f (l1 ++ l2) = concatMapB f l1 ++ concatMapB f l2 := by
  induction l1 with
  | nil => rfl
  | cons b bs ih => simp [concatMapB, ih]

theorem mangleBytes_cons (b : Nat) (bs : List Nat) :
    mangleBytes (b :: bs) =
      concatMapB upper_bit_sub (special_sub b) ++ mangleBytes bs := by
  show concatMapB upper_bit_sub (special_sub b ++ concatMapB special_sub bs) = _
  rw [concatMapB_append]
  rfl

theorem hexVal_hexDigitChar (n : Nat) (h : n < 16) :
    hexVal (hexDigitChar n) = n := by
  unfold hexVal hexDigitChar
  split <;> split <;> omega

theorem unescape_cons_n (l : List Nat) :
    unescapeBytes (92 :: 110 :: l) = 10 :: unescapeBytes l := by
  rw [unescapeBytes.eq_def]; rfl

theorem unescape_cons_t (l : List Nat) :
    unescapeBytes (92 :: 116 :: l) = 9 :: unescapeBytes l := by
  rw [unescapeBytes.eq_def]; rfl

theorem unescape_cons_q (l : List Nat) :
    unescapeBytes (92 :: 34 :: l) = 34 :: unescapeBytes l := by
  rw [unescapeBytes.eq_def]; rfl

theorem unescape_cons_b (l : List Nat) :
    unescapeBytes (92 :: 92 :: l) = 92 :: unescapeBytes l := by
  rw [unescapeBytes.eq_def]; rfl

theorem unescape_cons_x (h1 h2 : Nat) (l : List Nat) :
    unescapeBytes (92 :: 120 :: h1 :: h2 :: l) =
      (16 * hexVal h1 + hexVal h2) :: unescapeBytes l := by
  rw [unescapeBytes.eq_def]; rfl

theorem unescape_cons_plain (b : Nat) (l : List Nat) (h : ¬ b = 92) :
    unescapeBytes (b :: l) = b :: unescapeBytes l := by
  rw [unescapeBytes.eq_def]
  simp only [if_neg h]

theorem unescape_mangle (bs : List Nat) (h : ∀ b ∈ bs, b < 256) :
    unescapeBytes (mangleBytes bs) = bs := by
  induction bs with
  | nil => rfl
  | cons b bs ih =>
    have hb : b < 256 := h b (List.mem_cons_self b bs)
    have ih2 : unescapeBytes (mangleBytes bs) = bs :=
      ih (fun x hx => h x (List.mem_cons_of_mem b hx))
    rw [mangleBytes_cons]
    by_cases h10 : b = 10
    · subst h10
      show unescapeBytes (92 :: 110 :: mangleBytes bs) = 10 :: bs
      rw [unescape_cons_n, ih2]
    by_cases h9 : b = 9
    · subst h9
      show unescapeBytes (92 :: 116 :: mangleBytes bs) = 9 :: bs
      rw [unescape_cons_t, ih2]
    by_cases h34 : b = 34
    · subst h34
      show unescapeBytes (92 :: 34 :: mangleBytes bs) = 34 :: bs
      rw [unescape_cons_q, ih2]
    by_cases h92 : b = 92
    · subst h92
      show unescapeBytes (92 :: 92 :: mangleBytes bs) = 92 :: bs
      rw [unescape_cons_b, ih2]
    have hsp : special_sub b = [b] := by
      simp only [special_sub]
      rw [if_neg h10, if_neg h9, if_neg h34, if_neg h92]
    rw [hsp]
    by_cases hhi : 128 ≤ b
    · have hub : concatMapB upper_bit_sub [b] =
          [92, 120, hexDigitChar (b / 16), hexDigitChar (b % 16)] := by
        simp [concatMapB, upper_bit_sub, hhi]
      rw [hub]
      have hd1 : hexVal (hexDigitChar (b / 16)) = b / 16 :=
        hexVal_hexDigitChar (b / 16) (by omega)
      have hd2 : hexVal (hexDigitChar (b % 16)) = b % 16 :=
        hexVal_hexDigitChar (b % 16) (by omega)
      show unescapeBytes
        (92 :: 120 :: hexDigitChar (b / 16) :: hexDigitChar (b % 16) :: mangleBytes bs) = b :: bs
      rw [unescape_cons_x, hd1, hd2, ih2]
      congr 1
      omega
    · have hub : concatMapB upper_bit_sub [b] = [b] := by
        simp [concatMapB, upper_bit_sub, hhi]
      rw [hub]
      show unescapeBytes (b :: mangleBytes bs) = b :: bs
      rw [unescape_cons_plain b (mangleBytes bs) h92, ih2]

/-- C7 counterexample: the escaping function does NOT backslash-escape
every control character.  The carriage-return byte 13 is a control
character (13 < 32), yet mangleBytes leaves it completely unescaped: the
source only substitutes newline, tab, quote and backslash. -/
theorem C7_control_char_not_escaped_cex : mangleBytes [13] = [13] ∧ 13 < 32 := by
  decide

/-- C7 (amended): the escaping function backslash-escapes exactly
newline, tab, the quote character and the backslash character (other
control characters pass through unescaped), renders every byte with the
high bit set as a hexadecimal escape, and for any byte string (in
particular any string containing quotes, backslashes, newlines, tabs and
high-bit bytes) the rendered escaped form, reversed by the inverse
unescape rule, reproduces the original bytes exactly. -/
theorem C7_escape_roundtrip :
    (mangleBytes [10] = [92, 110] ∧ mangleBytes [9] = [92, 116] ∧
     mangleBytes [34] = [92, 34] ∧ mangleBytes [92] = [92, 92]) ∧
    (∀ b : Nat, 128 ≤ b → b < 256 →
      mangleBytes [b] = [92, 120, hexDigitChar (b / 16), hexDigitChar (b % 16)]) ∧
    (∀ bs : List Nat, (∀ b ∈ bs, b < 256) →
      unescapeBytes (mangleBytes bs) = bs) := by
  refine ⟨by decide, ?_, unescape_mangle⟩
  intro b hbl hbh
  have hsp : special_sub b = [b] := by
    simp only [special_sub]
    rw [if_neg (by omega), if_neg (by omega), if_neg (by omega), if_neg (by omega)]
  have h1 : concatMapB special_sub [b] = special_sub b := by
    simp [concatMapB]
  show concatMapB upper_bit_sub (concatMapB special_sub [b]) = _
  rw [h1, hsp]
  simp [concatMapB, upper_bit_sub, hbl]

/-- C7 witness: the theorem applied to the concrete byte string
[quote, backslash, newline, tab, high-bit byte 200]. -/
theorem C7_escape_roundtrip_witness :
    (∀ b ∈ [34, 92, 10, 9, 200], b < 256) ∧
    unescapeBytes (mangleBytes [34, 92, 10, 9, 200]) = [34, 92, 10, 9, 200] :=
  ⟨by decide, C7_escape_roundtrip.2.2 [34, 92, 10, 9, 200] (by decide)⟩

theorem setLastMonad_lm_of_le (o : SRObject) (e : Int) (h : o.fm ≤ e) :
    (setLastMonad o e).lm = e := by
  unfold setLastMonad
  split
  · simp
    omega
  · rfl

theorem padLoopAux_fm (fuel : Nat) :
    ∀ (minLen : Int) (o : SRObject) (cm : Int),
      (padLoopAux fuel minLen o cm).1.fm = o.fm := by
  induction fuel with
  | zero => intro minLen o cm; rfl
  | succ n ih =>
    intro minLen o cm
    by_cases hg : getMonadLength o < minLen
    · rw [padLoopAux, if_pos hg, ih, setLastMonad_fm]
    · rw [padLoopAux, if_neg hg]

theorem padLoopAux_fm_le_lm (fuel : Nat) :
    ∀ (minLen : Int) (o : SRObject) (cm : Int), o.fm ≤ o.lm →
      o.fm ≤ (padLoopAux fuel minLen o cm).1.lm := by
  induction fuel with
  | zero => intro minLen o cm h; exact h
  | succ n ih =>
    intro minLen o cm h
    by_cases hg : getMonadLength o < minLen
    · rw [padLoopAux, if_pos hg]
      have h2 : (setLastMonad o cm).fm ≤ (setLastMonad o cm).lm := by
        rw [setLastMonad_fm]
        exact setLastMonad_fm_le_lm o cm
      have h3 := ih minLen (setLastMonad o cm) (cm + 1) h2
      rw [setLastMonad_fm] at h3
      exact h3
    · rw [padLoopAux, if_neg hg]
      exact h

theorem padLoopAux_cm_le (fuel : Nat) :
    ∀ (minLen : Int) (o : SRObject) (cm : Int),
      cm ≤ (padLoopAux fuel minLen o cm).2 := by
  induction fuel with
  | zero => intro minLen o cm; exact le_refl cm
  | succ n ih =>
    intro minLen o cm
    by_cases hg : getMonadLength o < minLen
    · rw [padLoopAux, if_pos hg]
      have := ih minLen (setLastMonad o cm) (cm + 1)
      omega
    · rw [padLoopAux, if_neg hg]

theorem padLoopAux_guard (fuel : Nat) :
    ∀ (minLen : Int) (o : SRObject) (cm : Int), o.fm ≤ cm →
      ((minLen + o.fm - cm).toNat < fuel ∨ ¬ getMonadLength o < minLen) →
      ¬ getMonadLength (padLoopAux fuel minLen o cm).1 < minLen := by
  induction fuel with
  | zero =>
    intro minLen o cm h1 h2
    rcases h2 with h2 | h2
    · omega
    · exact h2
  | succ n ih =>
    intro minLen o cm h1 h2
    by_cases hg : getMonadLength o < minLen
    · rw [padLoopAux, if_pos hg]
      apply ih
      · rw [setLastMonad_fm]
        omega
      · by_cases hpos : 0 < minLen + o.fm - cm
        · left
          rw [setLastMonad_fm]
          rcases h2 with h2 | h2
          · omega
          · exact absurd hg h2
        · right
          have hlm : (setLastMonad o cm).lm = cm := setLastMonad_lm_of_le o cm h1
          unfold getMonadLength
          rw [hlm, setLastMonad_fm]
          omega
    · rw [padLoopAux, if_neg hg]
      exact hg

/-- C3: for every finished Structural Object of a type configured with
minimum monad length L, the closing step (setLastMonad to the monad
counter minus one, then the padding loop) yields a span whose last monad
is at least its first monad and whose length is at least L, advancing the
global monad counter; and the milestone scenario (element "milestone"
handled, no token association, minimum length 3, input <milestone/>)
yields exactly one Structural Object spanning monads 1-3 (3 monads) with
no tokens minted, the monad counter having advanced to 4. -/
theorem C3_minimum_length_padding :
    (∀ (minLen : Int) (o : SRObject) (cm : Int), o.fm ≤ cm →
      o.fm ≤ (padObject minLen (setLastMonad o (cm - 1)) cm).1.lm ∧
      minLen ≤ getMonadLength (padObject minLen (setLastMonad o (cm - 1)) cm).1 ∧
      cm ≤ (padObject minLen (setLastMonad o (cm - 1)) cm).2) ∧
    (processEvents milestoneScript milestoneEvents
        (initMQLState milestoneScript 1 1)).map
      (fun st => (objectSpans st "milestone", tokenSurfaces st "word",
                  st.curmonad)) =
      Except.ok ([(1, 3)], [], 4) := by
  constructor
  · intro minLen o cm h
    have hfm : (setLastMonad o (cm - 1)).fm = o.fm := setLastMonad_fm o (cm - 1)
    unfold padObject
    rw [hfm]
    refine ⟨?_, ?_, ?_⟩
    · have h2 := padLoopAux_fm_le_lm
        (padFuel minLen o.fm cm) minLen (setLastMonad o (cm - 1)) cm
        (by rw [hfm]; exact setLastMonad_fm_le_lm o (cm - 1))
      rw [hfm] at h2
      exact h2
    · have h2 := padLoopAux_guard
        (padFuel minLen o.fm cm) minLen (setLastMonad o (cm - 1)) cm
        (by rw [hfm]; exact h)
        (Or.inl (by rw [hfm]; unfold padFuel; omega))
      omega
    · exact padLoopAux_cm_le _ minLen (setLastMonad o (cm - 1)) cm
  · rfl

/-- C3 witness: the padding theorem applied to a concrete open object
with first monad 1, the monad counter at 1, and minimum length 3. -/
theorem C3_minimum_length_padding_witness :
    padWitnessObject.fm ≤ (1 : Int) ∧
    (padWitnessObject.fm ≤
        (padObject 3 (setLastMonad padWitnessObject (1 - 1)) 1).1.lm ∧
      (3 : Int) ≤ getMonadLength (padObject 3 (setLastMonad padWitnessObject (1 - 1)) 1).1 ∧
      (1 : Int) ≤ (padObject 3 (setLastMonad padWitnessObject (1 - 1)) 1).2) :=
  ⟨by decide, C3_minimum_length_padding.1 3 padWitnessObject 1 (by decide)⟩

/-- C1: in the nixing scenario ("note" nixed, "p" handled with token type
"word", input <p>A<note>B<p>C</p></note>D</p>) the code does NOT keep the
nixed subtree out of the output: endElement flushes buffered text through
handleChars BEFORE consulting the suppression stack, and handleChars never
consults it, so the text "C" (inside the nixed subtree) is tokenized at
monad 1 and lands inside the outer "p" span (1, 2).  No object is created
for "note" or for the inner "p" (only the one outer "p" object exists),
and "A"/"B" are dropped, but the claim's required absence of "C" fails. -/
theorem C1_nixed_subtree_token_leak :
    (processEvents scenarioScript nixScenarioEvents
        (initMQLState scenarioScript 1 1)).map
      (fun st => tokenMonadSurfaces st "word") =
      Except.ok [(1, "C"), (2, "D")] ∧
    (processEvents scenarioScript nixScenarioEvents
        (initMQLState scenarioScript 1 1)).map
      (fun st => (objectSpans st "p", objectSpans st "note")) =
      Except.ok ([(1, 2)], []) ∧
    "C" ∈ (["C", "D"] : List String) :=
  ⟨rfl, rfl, by decide⟩

/-- C2: the document-index counter is NOT non-decreasing: createToken
advances it by min(1, configured pre-increment) and then by 1, so with a
configured pre-increment of -2 one token-minting operation moves the
counter from 1 down to 0 (the source's min should have been max). -/
theorem C2_docindex_counter_decreases :
    (createToken skipNegTwoScript "word" "" "x" ""
        (initMQLState skipNegTwoScript 1 1)).map
      (fun st => st.curdocindex) = Except.ok 0 ∧
    (0 : Int) < 1 :=
  ⟨rfl, by decide⟩

/-- C4 counterexample: the claim that "A" (text buffered before the
nested start tag <note>) is tokenized is false: in the nixing scenario the
minted token surfaces are exactly ["C", "D"], and "A" is not among them
(handleChars drops every non-terminal flush). -/
theorem C4_text_before_start_tag_cex :
    (processEvents scenarioScript nixScenarioEvents
        (initMQLState scenarioScript 1 1)).map
      (fun st => tokenSurfaces st "word") = Except.ok ["C", "D"] ∧
    "A" ∉ (["C", "D"] : List String) :=
  ⟨rfl, by decide⟩

/-- C4 (amended): text buffered before a nested start tag is flushed as a
non-terminal flush and DISCARDED by the MQL generator (handleChars is the
identity on the state whenever bIsEndTag is false), attributed to no
element; in the nixing scenario "A" is not tokenized, while "D" (terminal
flush of the outer </p>) is tokenized at monad 2, inside the outer "p"
span (1, 2). -/
theorem C4_nonterminal_flush_discarded :
    (∀ (sc : Script) (chars_before tag : String) (st : MQLState),
      handleChars sc chars_before tag false st = Except.ok st) ∧
    (processEvents scenarioScript nixScenarioEvents
        (initMQLState scenarioScript 1 1)).map
      (fun st => (tokenMonadSurfaces st "word", objectSpans st "p")) =
      Except.ok ([(1, "C"), (2, "D")], [(1, 2)]) := by
  exact ⟨fun sc chars_before tag st => rfl, rfl⟩

/-- C5: the configured document-index pre-increment is neither honored
when larger than 1 nor kept at least 1: createToken computes
min(1, configured).  With configured increment 5 the minted token's
document index is 2 (pre-increment collapsed to 1; the claim requires 6),
and with configured increment -3 the token's document index is -2 and the
counter ends at -1, below its starting value 1. -/
theorem C5_docindex_preincrement_clamped :
    (createToken skipFiveScript "word" "" "x" ""
        (initMQLState skipFiveScript 1 1)).map
      (fun st => (st.curdocindex,
        ((st.tokens.lookup "word").getD []).map Token.xmlindex)) =
      Except.ok (3, [2]) ∧
    (createToken skipNegThreeScript "word" "" "x" ""
        (initMQLState skipNegThreeScript 1 1)).map
      (fun st => (st.curdocindex,
        ((st.tokens.lookup "word").getD []).map Token.xmlindex)) =
      Except.ok (-1, [-2]) ∧
    (2 : Int) ≠ 6 :=
  ⟨rfl, rfl, by decide⟩

/-- C6 counterexample: the document-index counter is NOT injectable
initial state and does not carry over: after document 1 (<p>A B</p>) the
counter stands at 6, but a handler constructed for document 2 (whose only
injectable state is first_monad and first_id_d) starts with curdocindex
equal to 1, not 6. -/
theorem C6_docindex_not_injectable_cex :
    (processEvents scenarioScript docOneEvents
        (initMQLState scenarioScript 1 1)).map
      (fun st => st.curdocindex) = Except.ok 6 ∧
    (initMQLState scenarioScript 3 3).curdocindex = 1 ∧
    (1 : Int) ≠ 6 :=
  ⟨rfl, rfl, by decide⟩

/-- C6 (amended): the processor accepts the monad counter and the
object-identifier counter as injectable initial state (and resets the
document-index counter to 1 for every new handler).  Composing two
documents by injecting document 1's final monad and identifier counters:
document 1 (<p>A B</p> from monad 1) mints tokens at monads 1 and 2 and
ends with the monad counter at 3; document 2 (<p>C</p>), started with
first_monad 3, mints its first token at monad 3 — the final monad of
document 1 (2) plus 1. -/
theorem C6_monad_id_carry_over :
    (∀ (sc : Script) (first_monad first_id_d : Int),
      (initMQLState sc first_monad first_id_d).curmonad = first_monad ∧
      (initMQLState sc first_monad first_id_d).curid_d = first_id_d ∧
      (initMQLState sc first_monad first_id_d).curdocindex = 1) ∧
    (processEvents scenarioScript docOneEvents
        (initMQLState scenarioScript 1 1)).map
      (fun st => (tokenMonadSurfaces st "word", st.curmonad, st.curid_d)) =
      Except.ok ([(1, "A"), (2, "B")], 3, 3) ∧
    (processEvents scenarioScript docTwoEvents
        (initMQLState scenarioScript 3 3)).map
      (fun st => tokenMonadSurfaces st "word") =
      Except.ok [(3, "C")] ∧
    (2 : Int) + 1 = 3 := by
  exact ⟨fun sc m i => ⟨rfl, rfl, rfl⟩, rfl, rfl, by decide⟩

/-- C8: the schema deriver does not build what the claim says.  (i) It
iterates the KEYS of global_parameters instead of the configured
token-type list, so with token-type list ["word"] the derived catalogue
names are the three global-parameter key names plus the handled element's
type, and no "word" entry exists.  (ii) For a handled element declaring
attribute "n" as feature "n" of type STRING, the attribute's feature is
silently dropped — lines 507-508 look the leaked Python locals
("surface_lowcase" / "STRING WITH INDEX") up as keys in the attribute's
JSON object, both lookups default to "", the guard fails — so the
element's entry carries only the integer document-index feature, not the
claimed attribute-derived features.  (iii) Only when global_parameters is
empty does the attribute loop raise UnboundLocalError. -/
theorem C8_schema_wrong_iteration :
    (makeSchema schemaScript).map (fun sch => sch.map Prod.fst) =
      Except.ok ["docIndexFeatureName", "docIndexIncrementBeforeObjectType",
                 "tokenObjectTypeNameList", "chapter"] ∧
    "word" ∉ ["docIndexFeatureName", "docIndexIncrementBeforeObjectType",
              "tokenObjectTypeNameList", "chapter"] ∧
    (makeSchema schemaScriptWithAttribute).map
      (fun sch => (sch.lookup "chapter").map (fun d => d.features)) =
      Except.ok (some [("xmlindex", "INTEGER")]) ∧
    makeSchema emptyParamsAttrScript =
      Except.error "UnboundLocalError: local variable referenced before assignment" :=
  ⟨rfl, by decide, rfl, rfl⟩

/-- C9 counterexample: a run whose element stack is non-empty at
end-of-input is NOT a fatal error in this code: after processing
<p>hi</p><p> (the second p never closed), endDocument (a no-op) accepts
the state, the element stack still holds "p", and output exists (one
finished "p" object spanning monad 1, one token "hi"). -/
theorem C9_unbalanced_not_detected_cex :
    ((processEvents scenarioScript unbalancedEvents
        (initMQLState scenarioScript 1 1)).bind endDocument).map
      (fun st => (st.elemstack, objectSpans st "p", tokenSurfaces st "word")) =
      Except.ok (["p"], [(1, 1)], ["hi"]) ∧
    (["p"] : List String) ≠ [] :=
  ⟨rfl, by decide⟩

/-- C9 (amended): the handler performs no end-of-document balance check —
endDocument is the identity on every state — so a run ending with a
non-empty element stack completes without error and its accumulated
objects and tokens remain available for output; imbalance is only caught,
if at all, by the underlying XML parser, not by this code. -/
theorem C9_end_document_no_check :
    (∀ st : MQLState, endDocument st = Except.ok st) ∧
    ((processEvents scenarioScript unbalancedEvents
        (initMQLState scenarioScript 1 1)).bind endDocument).map
      (fun st => (st.elemstack.length, (objectSpans st "p").length,
                  (tokenSurfaces st "word").length)) =
      Except.ok (1, 1, 1) := by
  exact ⟨fun st => rfl, rfl⟩

theorem any_const_false {α : Type} (l : List α) : (l.any fun _ => false) = false := by
  induction l with
  | nil => rfl
  | cons a t ih => simp [ih]

theorem startsWith_WITH_false (s : String) (h : s.data.head? ≠ some 'W') :
    strStartsWith s "WITH ID_D=" = false := by
  unfold strStartsWith
  cases hs : s.data with
  | nil => rfl
  | cons c cs =>
    rw [hs] at h
    have hc : c ≠ 'W' := by
      intro he
      exact h (by rw [he]; rfl)
    have he : isHeadSeg ("WITH ID_D=".data) (c :: cs) =
        (('W' == c) && isHeadSeg "ITH ID_D=".data cs) := rfl
    rw [he, beq_eq_false_iff_ne.mpr (Ne.symm hc), Bool.false_and]

theorem startsWith_WITH_false_append (x y z : String) (c : Char)
    (hx : x.data.head? = some c) (hc : c ≠ 'W') :
    strStartsWith (x ++ y ++ z) "WITH ID_D=" = false := by
  apply startsWith_WITH_false
  rw [data_append2, data_append2]
  have hh : ((x.data ++ y.data) ++ z.data).head? = some c := by
    cases hd : x.data with
    | nil => rw [hd] at hx; simp at hx
    | cons a as =>
      rw [hd] at hx
      simp only [List.cons_append, List.head?]
      simpa using hx
  rw [hh]
  simpa using hc

theorem startsWith_WITH_true3 (a b : String) :
    strStartsWith ("WITH ID_D=" ++ a ++ b) "WITH ID_D=" = true := by
  unfold strStartsWith
  rw [data_append2, data_append2, List.append_assoc]
  exact isHeadSeg_append_self _ _

theorem startsWith_WITH_true2 (a : String) :
    strStartsWith ("WITH ID_D=" ++ a) "WITH ID_D=" = true := by
  unfold strStartsWith
  rw [data_append2]
  exact isHeadSeg_append_self _ _

/-- C10: the rendered output of a token or structural object contains the
identifier clause (a written string starting with "WITH ID_D=") if and
only if that instance's identifier is nonzero; the token minted by
createToken carries the current object-identifier counter as its
identifier, after which the counter advances by exactly 1 (and opening an
object leaves it untouched); consequently, starting the run <p>A B C</p>
with first_id_d = 0, the three minted tokens have identifiers 0, 1, 2 and
their dumps carry the clause pattern [absent, present, present]. -/
theorem C10_id_clause_iff_nonzero :
    (∀ t : Token, (hasIdClause t.dumpMQL = true ↔ t.id_d ≠ 0)) ∧
    (∀ o : SRObject, (hasIdClause o.dumpMQL = true ↔ o.id_d ≠ 0)) ∧
    (∀ (sc : Script) (tokenObjectTypeName p s x : String) (st : MQLState),
      (mintedToken sc tokenObjectTypeName p s x st).id_d = st.curid_d ∧
      (createToken sc tokenObjectTypeName p s x st).map (fun st2 => st2.curid_d) =
        (createToken sc tokenObjectTypeName p s x st).map (fun _ => st.curid_d + 1)) ∧
    (∀ (sc : Script) (objectTypeName : String) (st : MQLState),
      (createObject sc objectTypeName st).2.curid_d = st.curid_d) ∧
    (processEvents scenarioScript threeTokenEvents
        (initMQLState scenarioScript 1 0)).map
      (fun st => ((st.tokens.lookup "word").getD []).map
        (fun t => (t.id_d, hasIdClause t.dumpMQL))) =
      Except.ok [(0, false), (1, true), (2, true)] := by
  refine ⟨?_, ?_, ?_, fun sc n st => rfl, rfl⟩
  · intro t
    have hmon : strStartsWith
        ("CREATE OBJECT FROM MONADS=\x7b" ++ toString t.monad ++ "\x7d\n")
        "WITH ID_D=" = false :=
      startsWith_WITH_false_append "CREATE OBJECT FROM MONADS=\x7b"
        (toString t.monad) "\x7d\n" 'C' rfl (by decide)
    have hopen : strStartsWith "[" "WITH ID_D=" = false := by decide
    have hclose : strStartsWith "]\n" "WITH ID_D=" = false := by decide
    have hxml : strStartsWith ("xmlindex:=" ++ toString t.xmlindex ++ ";\n")
        "WITH ID_D=" = false :=
      startsWith_WITH_false_append "xmlindex:=" (toString t.xmlindex) ";\n"
        'x' rfl (by decide)
    have hf1 : strStartsWith ("prefix:\"" ++ mangleRender t.pre ++ "\";\n")
        "WITH ID_D=" = false :=
      startsWith_WITH_false_append "prefix:\"" (mangleRender t.pre)
        "\";\n" 'p' rfl (by decide)
    have hf2 : strStartsWith ("surface:\"" ++ mangleRender t.surface ++ "\";\n")
        "WITH ID_D=" = false :=
      startsWith_WITH_false_append "surface:\"" (mangleRender t.surface)
        "\";\n" 's' rfl (by decide)
    have hf3 : strStartsWith ("suffix:\"" ++ mangleRender t.suf ++ "\";\n")
        "WITH ID_D=" = false :=
      startsWith_WITH_false_append "suffix:\"" (mangleRender t.suf)
        "\";\n" 's' rfl (by decide)
    have hf4 : strStartsWith
        ("surface_lowcase:\"" ++ mangleRender t.surface.toLower ++ "\";\n")
        "WITH ID_D=" = false :=
      startsWith_WITH_false_append "surface_lowcase:\""
        (mangleRender t.surface.toLower) "\";\n" 's' rfl (by decide)
    have hid_t : strStartsWith ("WITH ID_D=" ++ toString t.id_d ++ "\n")
        "WITH ID_D=" = true := startsWith_WITH_true3 (toString t.id_d) "\n"
    by_cases h : t.id_d = 0
    · simp [Token.dumpMQL, hasIdClause, h, hmon, hopen, hclose, hxml,
            List.any_append]
      exact ⟨hf1, hf2, hf3, hf4⟩
    · simp [Token.dumpMQL, hasIdClause, h, hid_t, List.any_append]
  · intro o
    have hcre : strStartsWith
        ("CREATE OBJECT FROM MONADS=\x7b" ++ toString o.fm ++ "-" ++
          toString o.lm ++ "\x7d") "WITH ID_D=" = false :=
      startsWith_WITH_false_append
        ("CREATE OBJECT FROM MONADS=\x7b" ++ toString o.fm ++ "-")
        (toString o.lm) "\x7d" 'C'
        (by rw [data_append2, data_append2]; rfl) (by decide)
    have hopen : strStartsWith "[" "WITH ID_D=" = false := by decide
    have hclose : strStartsWith "]\n" "WITH ID_D=" = false := by decide
    have hns : ∀ k v : String,
        strStartsWith ("  " ++ k ++ ":=" ++ v ++ ";\n") "WITH ID_D=" = false :=
      fun k v =>
        startsWith_WITH_false_append ("  " ++ k ++ ":=") v ";\n" ' '
          (by rw [data_append2, data_append2]; rfl) (by decide)
    have hsf : ∀ k v : String,
        strStartsWith ("  " ++ k ++ ":=\"" ++ mangleRender v ++ "\";\n")
          "WITH ID_D=" = false :=
      fun k v =>
        startsWith_WITH_false_append ("  " ++ k ++ ":=\"") (mangleRender v)
          "\";\n" ' ' (by rw [data_append2, data_append2]; rfl) (by decide)
    have hid_o : strStartsWith ("WITH ID_D=" ++ toString o.id_d)
        "WITH ID_D=" = true := startsWith_WITH_true2 (toString o.id_d)
    by_cases h : o.id_d = 0
    · simp [SRObject.dumpMQL, hasIdClause, h, hcre, hopen, hclose,
            List.any_append, List.any_map, Function.comp]
      constructor
      · intro a k v hmem heq
        subst heq
        exact hns k v
      · intro a k v hmem heq
        subst heq
        exact hsf k v
    · simp [SRObject.dumpMQL, hasIdClause, h, hid_o, hcre,
            List.any_append, List.any_map, Function.comp]
  · intro sc tokenObjectTypeName p s x st
    refine ⟨rfl, ?_⟩
    simp only [createToken]
    split <;> rfl
